import Mathlib

/-!
Verification of the SASL bind and secure-framing layer of libldap
(`libraries/libldap/sasl.c`).  The definitions below are a shallow embedding
of that file: the frame codec (`sb_sasl_pkt_length`), the staging-buffer
compaction (`sb_sasl_drop_packet`), the streaming read/write adapter
(`sb_sasl_read`, `sb_sasl_write`), the provider status mapping
(`sasl_err2ldap`), the credential callbacks (`ldap_pvt_sasl_getsecret`,
`ldap_pvt_sasl_getsimple`), the adapter installation
(`ldap_pvt_sasl_install`) and the negotiation session
(`ldap_pvt_sasl_bind`).  Collaborators that live outside this file in the
repository (liblber buffer helpers, the Cyrus SASL provider, the transport)
are modelled from the specification and marked as such.
-/

namespace Sasl

/-- LDAP result codes used by `sasl.c`, with their values from `ldap.h`. -/
def LDAP_SUCCESS : Nat := 0

/-- LDAP operationsError (0x01). -/
def LDAP_OPERATIONS_ERROR : Nat := 1

/-- LDAP saslBindInProgress (0x0e). -/
def LDAP_SASL_BIND_IN_PROGRESS : Nat := 14

/-- LDAP unavailable (0x34). -/
def LDAP_UNAVAILABLE : Nat := 52

/-- LDAP other (0x50); used in the model for an exhausted exchange script. -/
def LDAP_OTHER : Nat := 80

/-- LDAP localError (0x52). -/
def LDAP_LOCAL_ERROR : Nat := 82

/-- LDAP authUnknown (0x56). -/
def LDAP_AUTH_UNKNOWN : Nat := 86

/-- LDAP paramError (0x59). -/
def LDAP_PARAM_ERROR : Nat := 89

/-- LDAP noMemory (0x5a). -/
def LDAP_NO_MEMORY : Nat := 90

/-- LDAP notSupported (0x5c). -/
def LDAP_NOT_SUPPORTED : Nat := 92

/-- LDAP moreResultsToReturn (0x5f). -/
def LDAP_MORE_RESULTS_TO_RETURN : Nat := 95

/-- LDAP_API_ERROR(n) from ldap.h: LDAP_RANGE((n), 0x51, 0x61). -/
abbrev LDAP_API_ERROR (n : Nat) : Prop := 81 ≤ n ∧ n ≤ 97

/-- Cyrus SASL status codes (sasl.h). -/
def SASL_CONTINUE : Int := 1

/-- SASL_OK (0). -/
def SASL_OK : Int := 0

/-- SASL_FAIL (-1), the generic failure code. -/
def SASL_FAIL : Int := -1

/-- SASL_NOMEM (-2), allocation failure. -/
def SASL_NOMEM : Int := -2

/-- SASL_NOMECH (-4), mechanism unknown. -/
def SASL_NOMECH : Int := -4

/-- SASL_BADAUTH (-13), authentication failure. -/
def SASL_BADAUTH : Int := -13

/-- SASL_NOAUTHZ (-14), authorization identity not supported. -/
def SASL_NOAUTHZ : Int := -14

/-- SASL_TOOWEAK (-15), mechanism too weak. -/
def SASL_TOOWEAK : Int := -15

/-- SASL_ENCRYPT (-16), encryption needed. -/
def SASL_ENCRYPT : Int := -16

/-- MAX_BUFF_SIZE from sasl.c: the hard ceiling on a declared packet length. -/
def MAX_BUFF_SIZE : Nat := 65536

/-- MIN_BUFF_SIZE from sasl.c: the staging buffer size chosen at setup. -/
def MIN_BUFF_SIZE : Nat := 4096

/-- Big-endian 32-bit value of the first four bytes of a buffer: the
`ntohl` of the header word read by `sb_sasl_pkt_length` (on the ILP32
platforms this code targets, `*(long *)buf` followed by `ntohl` yields
exactly the big-endian value of the first four bytes). -/
def be32 (buf : List Nat) : Nat :=
  buf.getD 0 0 * 16777216 + buf.getD 1 0 * 65536 + buf.getD 2 0 * 256 + buf.getD 3 0

/-- Embedding of `sb_sasl_pkt_length` (sasl.c:465-485): the declared length
is the big-endian header value; a value above `MAX_BUFF_SIZE` is clamped to
the sentinel 16; the returned frame size includes the 4 header bytes.  The
function is pure and total: it signals the violation only in-band via the
sentinel. -/
def sb_sasl_pkt_length (buf : List Nat) : Nat :=
  let size := be32 buf
  (if size > MAX_BUFF_SIZE then 16 else size) + 4

/-- Model of liblber's `Sockbuf_Buf`: the backing storage content together
with the read/write cursor, the logical end, and the capacity. -/
structure Sockbuf_Buf where
  buf_base : List Nat
  buf_ptr : Nat
  buf_end : Nat
  buf_size : Nat
  deriving Repr, DecidableEq

/-- Embedding of `sb_sasl_drop_packet` (sasl.c:488-506).  The source
computes `len = buf_ptr - buf_end` as a signed quantity; every caller in
sasl.c (and every claim) has `buf_end ≤ buf_ptr`, which the natural-number
subtraction here models faithfully.  `memmove(base, base + buf_end, len)`
leaves the bytes from position `len` onward unchanged. -/
def sb_sasl_drop_packet (b : Sockbuf_Buf) : Sockbuf_Buf :=
  let len := b.buf_ptr - b.buf_end
  let base :=
    if 0 < len then (b.buf_base.drop b.buf_end).take len ++ b.buf_base.drop len
    else b.buf_base
  { b with
    buf_base := base
    buf_end := if 4 ≤ len then sb_sasl_pkt_length base else 0
    buf_ptr := len }

/-- Cursor-state consistency as asserted by the specification for
`drop_consumed`: the buffer is empty, or holds leftover bytes of a next
packet whose header is still incomplete, or holds at least a header of a
next packet that is not yet complete (`buf_ptr < buf_end`). -/
def dropConsistent (b : Sockbuf_Buf) : Prop :=
  (b.buf_ptr = 0 ∧ b.buf_end = 0) ∨
  (0 < b.buf_ptr ∧ b.buf_ptr < 4 ∧ b.buf_end = 0) ∨
  (4 ≤ b.buf_ptr ∧ b.buf_end = sb_sasl_pkt_length b.buf_base ∧ b.buf_ptr < b.buf_end)

instance (b : Sockbuf_Buf) : Decidable (dropConsistent b) := by
  unfold dropConsistent
  exact inferInstance

/-- Cursor-state consistency as the code actually guarantees it: as in
`dropConsistent`, except that when at least a full header is left the next
packet may already be complete (no `buf_ptr < buf_end` requirement). -/
def dropConsistentAmended (b : Sockbuf_Buf) : Prop :=
  (b.buf_ptr = 0 ∧ b.buf_end = 0) ∨
  (0 < b.buf_ptr ∧ b.buf_ptr < 4 ∧ b.buf_end = 0) ∨
  (4 ≤ b.buf_ptr ∧ b.buf_end = sb_sasl_pkt_length b.buf_base)

/-- A staging buffer in which the consumed packet occupied the first 4
bytes and 6 leftover bytes follow, the first 4 of which form a header that
declares a zero-length body. -/
def c3CexBuf : Sockbuf_Buf := ⟨[1, 2, 3, 4, 0, 0, 0, 0, 7, 7], 10, 4, 10⟩

/-- Claim C1: for a 4-byte header the packet-length parser returns the
big-endian value plus 4 when that value is at most 65536, and the sentinel
16 plus 4 (i.e. 20) when the value strictly exceeds 65536.  The function is
a pure total function with no error return. -/
theorem c1_pkt_length (b0 b1 b2 b3 : Nat) :
    sb_sasl_pkt_length [b0, b1, b2, b3] =
      if be32 [b0, b1, b2, b3] ≤ 65536 then be32 [b0, b1, b2, b3] + 4 else 20 := by
  unfold sb_sasl_pkt_length MAX_BUFF_SIZE
  by_cases h : be32 [b0, b1, b2, b3] ≤ 65536
  · simp [h, Nat.not_lt.mpr h]
  · simp [h, Nat.lt_of_not_le h]

/-- Claim C3, counterexample: on a buffer whose consumed packet ends at
offset 4 with 6 leftover bytes whose shifted header declares a zero-length
body, `sb_sasl_drop_packet` leaves `buf_ptr = 6 > 4 = buf_end`: the next
packet is already complete, so the state is not "empty or a not-yet-complete
next packet" as the claim asserts. -/
theorem c3_counterexample :
    c3CexBuf.buf_end ≤ c3CexBuf.buf_ptr ∧
    ¬ dropConsistent (sb_sasl_drop_packet c3CexBuf) := by
  decide

/-- Claim C3 (amended): whenever a packet has been fully consumed
(`buf_end ≤ buf_ptr` and the cursors lie within the storage),
`sb_sasl_drop_packet` moves the leftover bytes to the start of the buffer,
sets `buf_ptr` to the leftover count, recomputes `buf_end` from the shifted
header when at least 4 leftover bytes remain and resets it to 0 otherwise,
and leaves a consistent cursor state: empty, or exactly the leftover bytes
of the next packet at the start of the buffer (which may already be complete
when the leftover contains a full small packet). -/
theorem c3_drop_packet_amended (b : Sockbuf_Buf)
    (hconsumed : b.buf_end ≤ b.buf_ptr) (hwf : b.buf_ptr ≤ b.buf_base.length) :
    (sb_sasl_drop_packet b).buf_base.take (b.buf_ptr - b.buf_end) =
      (b.buf_base.drop b.buf_end).take (b.buf_ptr - b.buf_end) ∧
    (sb_sasl_drop_packet b).buf_ptr = b.buf_ptr - b.buf_end ∧
    (sb_sasl_drop_packet b).buf_end =
      (if 4 ≤ b.buf_ptr - b.buf_end then
        sb_sasl_pkt_length (sb_sasl_drop_packet b).buf_base else 0) ∧
    dropConsistentAmended (sb_sasl_drop_packet b) := by
  unfold sb_sasl_drop_packet
  by_cases hpos : 0 < b.buf_ptr - b.buf_end
  · have hlen : ((b.buf_base.drop b.buf_end).take (b.buf_ptr - b.buf_end)).length =
        b.buf_ptr - b.buf_end := by
      rw [List.length_take, List.length_drop]
      omega
    refine ⟨?_, rfl, ?_, ?_⟩
    · simp only [hpos, if_pos]
      rw [List.take_append_of_le_length (by omega), List.take_take]
      simp
    · simp [hpos]
    · unfold dropConsistentAmended
      by_cases h4 : 4 ≤ b.buf_ptr - b.buf_end
      · right; right
        simp [hpos, h4]
      · right; left
        simp [hpos, h4]
        omega
  · have hz : b.buf_ptr - b.buf_end = 0 := by omega
    refine ⟨by simp [hz], by simp [hz], by simp [hz], ?_⟩
    unfold dropConsistentAmended
    left
    simp [hz]

/-- Claim C3 witness: the amended drop theorem applied to a buffer holding
5 leftover bytes after a 4-byte consumed packet. -/
theorem c3_witness :
    (⟨[9, 9, 9, 9, 0, 0, 0, 1, 5], 9, 4, 9⟩ : Sockbuf_Buf).buf_end ≤
      (⟨[9, 9, 9, 9, 0, 0, 0, 1, 5], 9, 4, 9⟩ : Sockbuf_Buf).buf_ptr ∧
    dropConsistentAmended
      (sb_sasl_drop_packet ⟨[9, 9, 9, 9, 0, 0, 0, 1, 5], 9, 4, 9⟩) :=
  ⟨by decide,
    (c3_drop_packet_amended ⟨[9, 9, 9, 9, 0, 0, 0, 1, 5], 9, 4, 9⟩
      (by decide) (by decide)).2.2.2⟩

/-- A response of the underlying transport to one `LBER_SBIOD_READ_NEXT`
call: a chunk of delivered bytes (the empty chunk is end-of-stream, return
value 0), a negative error return with `errno ≠ EINTR`, or a transient
interrupt (`ret < 0` with `errno = EINTR`), which the adapter retries. -/
inductive RdResp where
  | bytes (bs : List Nat)
  | rerr (e : Int)
  | intr
  deriving Repr, DecidableEq

/-- Functional result of `memcpy(base + off, bs, |bs|)`: the bytes of
`base` from `off` onward are overwritten by `bs`, the rest is unchanged. -/
def writeAt (base : List Nat) (off : Nat) (bs : List Nat) : List Nat :=
  base.take off ++ bs ++ base.drop (off + bs.length)

/-- Result of one of the two accumulation loops of `sb_sasl_read`: either
the target was reached, or the transport returned a 0-or-negative value
`e`, which `sb_sasl_read` propagates unchanged.  Both cases carry the
staging buffer at that point and the unconsumed transport responses. -/
inductive FillRes where
  | ok (b : Sockbuf_Buf) (rest : List RdResp)
  | fail (e : Int) (b : Sockbuf_Buf) (rest : List RdResp)
  deriving Repr, DecidableEq

/-- The staging buffer carried by a `FillRes`. -/
def FillRes.buf : FillRes → Sockbuf_Buf
  | .ok b _ => b
  | .fail _ b _ => b

/-- Embedding of the header-accumulation loop of `sb_sasl_read`
(sasl.c:530-541): while fewer than 4 bytes are buffered, read up to
`4 - buf_ptr` more bytes.  The source passes `buf_base` (offset 0, not
`buf_base + buf_ptr`) as the destination, which this model reproduces.
Interrupts are retried; a 0-or-negative transport return is propagated. -/
def sb_sasl_read_hdr (b : Sockbuf_Buf) (rs : List RdResp) : FillRes :=
  if b.buf_ptr < 4 then
    match rs with
    | [] => .fail 0 b []
    | .intr :: r => sb_sasl_read_hdr b r
    | .rerr e :: r => .fail e b r
    | .bytes bs :: r =>
      let got := bs.take (4 - b.buf_ptr)
      if got.length = 0 then .fail 0 b r
      else sb_sasl_read_hdr
        { b with buf_base := writeAt b.buf_base 0 got, buf_ptr := b.buf_ptr + got.length } r
  else .ok b rs

/-- Embedding of the body-accumulation loop of `sb_sasl_read`
(sasl.c:556-570): while `buf_ptr < buf_end`, read up to `buf_end - buf_ptr`
bytes into `buf_base + buf_ptr`.  Interrupts are retried; a 0-or-negative
transport return is propagated. -/
def sb_sasl_read_body (b : Sockbuf_Buf) (rs : List RdResp) : FillRes :=
  if b.buf_ptr < b.buf_end then
    match rs with
    | [] => .fail 0 b []
    | .intr :: r => sb_sasl_read_body b r
    | .rerr e :: r => .fail e b r
    | .bytes bs :: r =>
      let got := bs.take (b.buf_end - b.buf_ptr)
      if got.length = 0 then .fail 0 b r
      else sb_sasl_read_body
        { b with buf_base := writeAt b.buf_base b.buf_ptr got, buf_ptr := b.buf_ptr + got.length } r
  else .ok b rs

/-- Modelled from the spec: `ber_pvt_sb_buf_init` and `ber_pvt_sb_buf_destroy`
(liblber, not among the sources under study) release the backing storage and
zero the cursors (`reset`). -/
def ber_pvt_sb_buf_init : Sockbuf_Buf := ⟨[], 0, 0, 0⟩

/-- Modelled from the spec: `ber_pvt_sb_copy_out` (liblber, not among the
sources under study) copies up to `len` bytes of `[buf_ptr, buf_end)` into
the destination, advances `buf_ptr`, and returns the number of bytes copied
(0 if the buffer is empty).  Returned as (count, bytes, updated buffer). -/
def ber_pvt_sb_copy_out (b : Sockbuf_Buf) (len : Nat) : Nat × List Nat × Sockbuf_Buf :=
  let m := min (b.buf_end - b.buf_ptr) len
  (m, (b.buf_base.drop b.buf_ptr).take m, { b with buf_ptr := b.buf_ptr + m })

/-- Modelled from the spec: `ber_pvt_sb_grow_buffer` (liblber, not among the
sources under study) reallocates the backing storage to at least `minsize`
without corrupting the content; allocation is modelled as always
succeeding, so the ENOMEM branch of `sb_sasl_read` is unreachable here. -/
def ber_pvt_sb_grow_buffer (b : Sockbuf_Buf) (minsize : Nat) : Sockbuf_Buf :=
  { b with buf_size := max b.buf_size minsize }

/-- The per-connection state `struct sb_sasl_data` (sasl.c:418-423), minus
the opaque context handle, which is represented by the decode/encode
functions passed to `sb_sasl_read` / `sb_sasl_write`. -/
structure SaslData where
  sec_buf_in : Sockbuf_Buf
  buf_in : Sockbuf_Buf
  buf_out : Sockbuf_Buf
  deriving Repr, DecidableEq

/-- Outcome of one `sb_sasl_read` call: the C return value, whether the
adapter itself set `errno = EIO` (the decode-failure signal), the updated
state, the transport responses not consumed, and the bytes delivered into
the caller's destination. -/
structure RdRes where
  ret : Int
  eio : Bool
  st : SaslData
  rest : List RdResp
  out : List Nat
  deriving Repr, DecidableEq

/-- Embedding of `sb_sasl_read` (sasl.c:508-594).  `decode` stands for
`sasl_decode` with the negotiated context: `none` is a non-SASL_OK return.
Steps: satisfy from the decrypted-input ready buffer; if short, destroy the
ready buffer, accumulate a header, compute the frame length, grow the
staging buffer if needed, accumulate the body, decode; on decode failure
drop the packet, set `errno = EIO` and return -1; on success drop the
packet, fill the ready buffer and copy out up to the remaining request. -/
def sb_sasl_read (decode : List Nat → Option (List Nat)) (p : SaslData) (len : Nat)
    (rs : List RdResp) : RdRes :=
  let c0 := ber_pvt_sb_copy_out p.buf_in len
  let bufptr := c0.1
  let len1 := len - c0.1
  if len1 = 0 then ⟨(bufptr : Int), false, { p with buf_in := c0.2.2 }, rs, c0.2.1⟩
  else
    let p1 : SaslData := { p with buf_in := ber_pvt_sb_buf_init }
    match sb_sasl_read_hdr p1.sec_buf_in rs with
    | .fail e b r => ⟨e, false, { p1 with sec_buf_in := b }, r, c0.2.1⟩
    | .ok b r =>
      let plen := sb_sasl_pkt_length b.buf_base
      let b1 := if b.buf_size < plen then ber_pvt_sb_grow_buffer b plen else b
      let b2 := { b1 with buf_end := plen }
      match sb_sasl_read_body b2 r with
      | .fail e b3 r2 => ⟨e, false, { p1 with sec_buf_in := b3 }, r2, c0.2.1⟩
      | .ok b3 r2 =>
        match decode (b3.buf_base.take b3.buf_end) with
        | none => ⟨-1, true, { p1 with sec_buf_in := sb_sasl_drop_packet b3 }, r2, c0.2.1⟩
        | some plain =>
          let b4 := sb_sasl_drop_packet b3
          let bin1 : Sockbuf_Buf := ⟨plain, 0, plain.length, plain.length⟩
          let c1 := ber_pvt_sb_copy_out bin1 len1
          ⟨(bufptr + c1.1 : Nat), false,
            { sec_buf_in := b4, buf_in := c1.2.2, buf_out := p1.buf_out }, r2,
            c0.2.1 ++ c1.2.1⟩

/-- Modelled from the spec: the provider's `decode` operation (`sasl_decode`,
an external collaborator) accepts only frames consistent with real traffic,
namely packets whose 4-byte header declares a body length within the 65536
ceiling and whose total size is exactly the declared length plus 4; any
other packet fails to decode, which is what the sentinel of
`sb_sasl_pkt_length` is designed to force. -/
def specDecode (pkt : List Nat) : Option (List Nat) :=
  if be32 pkt ≤ MAX_BUFF_SIZE ∧ pkt.length = be32 pkt + 4 then some (pkt.drop 4) else none

/-- The value of `be32` depends only on the first four bytes. -/
theorem be32_cons (a b c d : Nat) (t : List Nat) :
    be32 (a :: b :: c :: d :: t) = be32 [a, b, c, d] := rfl

/-- A declared length above the ceiling is clamped: the frame size is 20. -/
theorem sb_sasl_pkt_length_over (buf : List Nat) (h : 65536 < be32 buf) :
    sb_sasl_pkt_length buf = 20 := by
  unfold sb_sasl_pkt_length MAX_BUFF_SIZE
  simp [h]

/-- The body-accumulation loop never changes the buffer capacity. -/
theorem sb_sasl_read_body_size (rs : List RdResp) : ∀ b : Sockbuf_Buf,
    ((sb_sasl_read_body b rs).buf).buf_size = b.buf_size := by
  induction rs with
  | nil =>
    intro b
    unfold sb_sasl_read_body
    split <;> rfl
  | cons hd tl ih =>
    intro b
    unfold sb_sasl_read_body
    split
    · cases hd with
      | intr => exact ih b
      | rerr e => rfl
      | bytes bs =>
        dsimp only
        split
        · rfl
        · exact ih _
    · rfl

/-- When the transport delivers the 4 header bytes in one chunk, the header
loop completes in one round, leaving the write cursor at 4. -/
theorem sb_sasl_read_hdr_four (h0 h1 h2 h3 : Nat) (base0 : List Nat) (e0 sz : Nat)
    (rs : List RdResp) :
    sb_sasl_read_hdr ⟨base0, 0, e0, sz⟩ (.bytes [h0, h1, h2, h3] :: rs) =
      .ok ⟨h0 :: h1 :: h2 :: h3 :: base0.drop 4, 4, e0, sz⟩ rs := by
  unfold sb_sasl_read_hdr
  norm_num [writeAt]
  unfold sb_sasl_read_hdr
  norm_num

/-- When the transport delivers the whole missing body in one chunk, the
body loop completes in one round, leaving the write cursor at the end. -/
theorem sb_sasl_read_body_one (b : Sockbuf_Buf) (body : List Nat) (rs : List RdResp)
    (hlt : b.buf_ptr < b.buf_end) (hlen : body.length = b.buf_end - b.buf_ptr) :
    sb_sasl_read_body b (.bytes body :: rs) =
      .ok { b with buf_base := writeAt b.buf_base b.buf_ptr body,
                   buf_ptr := b.buf_ptr + body.length } rs := by
  have htake : body.take (b.buf_end - b.buf_ptr) = body := by
    rw [← hlen]
    exact List.take_length body
  unfold sb_sasl_read_body
  rw [if_pos hlt]
  dsimp only
  rw [htake]
  rw [if_neg (by omega)]
  unfold sb_sasl_read_body
  rw [if_neg (show ¬(b.buf_ptr + body.length < b.buf_end) by omega)]

/-- Growing only when the capacity is short of `m` is the same as always
growing to at least `m`. -/
theorem grow_if (b : Sockbuf_Buf) (m : Nat) :
    (if b.buf_size < m then ber_pvt_sb_grow_buffer b m else b) =
      ber_pvt_sb_grow_buffer b m := by
  unfold ber_pvt_sb_grow_buffer
  split
  · rfl
  · cases b
    simp_all

/-- Dropping a packet never changes the buffer capacity. -/
theorem sb_sasl_drop_packet_size (b : Sockbuf_Buf) :
    (sb_sasl_drop_packet b).buf_size = b.buf_size := rfl

/-- Reduction of `sb_sasl_read` on a fresh adapter state (empty ready
buffer, empty staging buffer) when the transport delivers the 4 header
bytes in its first chunk: the read becomes the body accumulation on the
staging buffer sized to the computed frame length, followed by decode. -/
theorem sb_sasl_read_scenario (decode : List Nat → Option (List Nat))
    (h0 h1 h2 h3 : Nat) (base0 : List Nat) (sz len : Nat) (bin bout : Sockbuf_Buf)
    (hlen : 0 < len) (hbin : bin.buf_ptr = bin.buf_end) (rest : List RdResp) :
    sb_sasl_read decode ⟨⟨base0, 0, 0, sz⟩, bin, bout⟩ len
        (.bytes [h0, h1, h2, h3] :: rest) =
      match sb_sasl_read_body
          ⟨h0 :: h1 :: h2 :: h3 :: base0.drop 4, 4,
            sb_sasl_pkt_length (h0 :: h1 :: h2 :: h3 :: base0.drop 4),
            max sz (sb_sasl_pkt_length (h0 :: h1 :: h2 :: h3 :: base0.drop 4))⟩ rest with
      | .fail e b3 r2 => ⟨e, false, ⟨b3, ber_pvt_sb_buf_init, bout⟩, r2, []⟩
      | .ok b3 r2 =>
        match decode (b3.buf_base.take b3.buf_end) with
        | none => ⟨-1, true, ⟨sb_sasl_drop_packet b3, ber_pvt_sb_buf_init, bout⟩, r2, []⟩
        | some plain =>
          let c1 := ber_pvt_sb_copy_out ⟨plain, 0, plain.length, plain.length⟩ len
          ⟨(c1.1 : Nat), false, ⟨sb_sasl_drop_packet b3, c1.2.2, bout⟩, r2, c1.2.1⟩ := by
  unfold sb_sasl_read
  simp only [ber_pvt_sb_copy_out, hbin, Nat.sub_self, Nat.zero_min, Nat.sub_zero,
    List.take_zero, if_neg hlen.ne', sb_sasl_read_hdr_four, Nat.zero_add, List.nil_append]
  by_cases hg : sz < sb_sasl_pkt_length (h0 :: h1 :: h2 :: h3 :: List.drop 4 base0)
  · simp only [if_pos hg, ber_pvt_sb_grow_buffer]
  · simp only [if_neg hg, Nat.max_eq_left (Nat.le_of_not_lt hg)]

/-- Claim C2: on a fresh adapter state whose staging capacity is within the
65536 ceiling, a stream whose 4-byte header declares a length above the
ceiling (i) never grows the encrypted-input staging buffer beyond the
ceiling, whatever the transport delivers afterwards, and (ii) once the
clamped 20-byte frame has been accumulated, the read ends in the
decode-failure error (-1 with errno EIO) — never in an unbounded
allocation — with the staging capacity still within the ceiling. -/
theorem c2_oversize_header (h0 h1 h2 h3 : Nat) (base0 : List Nat) (sz len : Nat)
    (bin bout : Sockbuf_Buf)
    (hover : 65536 < be32 [h0, h1, h2, h3]) (hsz : sz ≤ 65536) (hlen : 0 < len)
    (hbin : bin.buf_ptr = bin.buf_end) :
    (∀ rs' : List RdResp,
      (sb_sasl_read specDecode ⟨⟨base0, 0, 0, sz⟩, bin, bout⟩ len
        (.bytes [h0, h1, h2, h3] :: rs')).st.sec_buf_in.buf_size ≤ 65536) ∧
    (∀ (body : List Nat) (rs'' : List RdResp), body.length = 16 →
      (sb_sasl_read specDecode ⟨⟨base0, 0, 0, sz⟩, bin, bout⟩ len
        (.bytes [h0, h1, h2, h3] :: .bytes body :: rs'')).ret = -1 ∧
      (sb_sasl_read specDecode ⟨⟨base0, 0, 0, sz⟩, bin, bout⟩ len
        (.bytes [h0, h1, h2, h3] :: .bytes body :: rs'')).eio = true ∧
      (sb_sasl_read specDecode ⟨⟨base0, 0, 0, sz⟩, bin, bout⟩ len
        (.bytes [h0, h1, h2, h3] :: .bytes body :: rs'')).st.sec_buf_in.buf_size ≤ 65536) := by
  have hplen : sb_sasl_pkt_length (h0 :: h1 :: h2 :: h3 :: base0.drop 4) = 20 :=
    sb_sasl_pkt_length_over _ (by rw [be32_cons]; exact hover)
  constructor
  · intro rs'
    rw [sb_sasl_read_scenario specDecode h0 h1 h2 h3 base0 sz len bin bout hlen hbin rs']
    rw [hplen]
    rcases hb : sb_sasl_read_body ⟨h0 :: h1 :: h2 :: h3 :: base0.drop 4, 4, 20, max sz 20⟩ rs'
      with ⟨b3, r2⟩ | ⟨e, b3, r2⟩
    · have hsize : b3.buf_size = max sz 20 := by
        have h := sb_sasl_read_body_size rs' ⟨h0 :: h1 :: h2 :: h3 :: base0.drop 4, 4, 20, max sz 20⟩
        rw [hb] at h
        exact h
      dsimp only
      rcases hd : specDecode (b3.buf_base.take b3.buf_end) with _ | plain
      · dsimp only
        rw [sb_sasl_drop_packet_size, hsize]
        omega
      · dsimp only
        rw [sb_sasl_drop_packet_size, hsize]
        omega
    · have hsize : b3.buf_size = max sz 20 := by
        have h := sb_sasl_read_body_size rs' ⟨h0 :: h1 :: h2 :: h3 :: base0.drop 4, 4, 20, max sz 20⟩
        rw [hb] at h
        exact h
      dsimp only
      rw [hsize]
      omega
  · intro body rs'' hbody
    rw [sb_sasl_read_scenario specDecode h0 h1 h2 h3 base0 sz len bin bout hlen hbin
      (.bytes body :: rs'')]
    rw [hplen]
    rw [sb_sasl_read_body_one ⟨h0 :: h1 :: h2 :: h3 :: base0.drop 4, 4, 20, max sz 20⟩ body rs''
      (by norm_num) (by simp [hbody])]
    have hpkt : (writeAt (h0 :: h1 :: h2 :: h3 :: base0.drop 4) 4 body).take 20 =
        [h0, h1, h2, h3] ++ body := by
      unfold writeAt
      have h4 : (h0 :: h1 :: h2 :: h3 :: base0.drop 4).take 4 = [h0, h1, h2, h3] := rfl
      rw [h4]
      exact List.take_left' (by simp [hbody])
    have hdec : specDecode ([h0, h1, h2, h3] ++ body) = none := by
      unfold specDecode MAX_BUFF_SIZE
      rw [if_neg]
      intro hcon
      have h := hcon.1
      rw [show ([h0, h1, h2, h3] ++ body : List Nat) = h0 :: h1 :: h2 :: h3 :: body from rfl,
        be32_cons] at h
      omega
    dsimp only
    rw [hpkt, hdec]
    dsimp only
    rw [sb_sasl_drop_packet_size]
    dsimp only
    refine ⟨rfl, rfl, ?_⟩
    omega

/-- Claim C2 witness: a header declaring 131072 bytes on a fresh adapter
(capacity 4096) is clamped, the read fails with EIO, and the capacity stays
within the ceiling. -/
theorem c2_witness :
    65536 < be32 [0, 2, 0, 0] ∧
    (sb_sasl_read specDecode ⟨⟨[], 0, 0, 4096⟩, ber_pvt_sb_buf_init, ber_pvt_sb_buf_init⟩ 1
      [.bytes [0, 2, 0, 0], .bytes (List.replicate 16 7)]).ret = -1 ∧
    (sb_sasl_read specDecode ⟨⟨[], 0, 0, 4096⟩, ber_pvt_sb_buf_init, ber_pvt_sb_buf_init⟩ 1
      [.bytes [0, 2, 0, 0], .bytes (List.replicate 16 7)]).eio = true ∧
    (sb_sasl_read specDecode ⟨⟨[], 0, 0, 4096⟩, ber_pvt_sb_buf_init, ber_pvt_sb_buf_init⟩ 1
      [.bytes [0, 2, 0, 0], .bytes (List.replicate 16 7)]).st.sec_buf_in.buf_size ≤ 65536 := by
  have h := c2_oversize_header 0 2 0 0 [] 4096 1 ber_pvt_sb_buf_init ber_pvt_sb_buf_init
    (by decide) (by decide) (by decide) rfl
  exact ⟨by decide, (h.2 (List.replicate 16 7) [] (by decide)).1,
    (h.2 (List.replicate 16 7) [] (by decide)).2.1,
    (h.2 (List.replicate 16 7) [] (by decide)).2.2⟩

/-- A declared length within the ceiling is not clamped: the frame size is
the declared length plus 4. -/
theorem sb_sasl_pkt_length_norm (buf : List Nat) (h : be32 buf ≤ 65536) :
    sb_sasl_pkt_length buf = be32 buf + 4 := by
  unfold sb_sasl_pkt_length MAX_BUFF_SIZE
  simp [Nat.not_lt.mpr h]

/-- A transport error during header accumulation aborts the loop with the
transport's own return value. -/
theorem sb_sasl_read_hdr_rerr (base0 : List Nat) (e0 sz : Nat) (e : Int) (rs : List RdResp) :
    sb_sasl_read_hdr ⟨base0, 0, e0, sz⟩ (.rerr e :: rs) = .fail e ⟨base0, 0, e0, sz⟩ rs := rfl

/-- A transport end-of-stream (empty chunk, return 0) during header
accumulation aborts the loop with return value 0. -/
theorem sb_sasl_read_hdr_eof (base0 : List Nat) (e0 sz : Nat) (rs : List RdResp) :
    sb_sasl_read_hdr ⟨base0, 0, e0, sz⟩ (.bytes [] :: rs) = .fail 0 ⟨base0, 0, e0, sz⟩ rs := rfl

/-- Dropping a fully consumed packet (write cursor exactly at the frame
end, no leftover) resets the staging buffer cursors to zero. -/
theorem sb_sasl_drop_packet_consumed (b : Sockbuf_Buf) (h : b.buf_ptr ≤ b.buf_end) :
    sb_sasl_drop_packet b = { b with buf_end := 0, buf_ptr := 0 } := by
  unfold sb_sasl_drop_packet
  have hz : b.buf_ptr - b.buf_end = 0 := by omega
  simp [hz]

/-- Claim C5: (i) when the fully accumulated packet fails the security
context's decode operation, the adapter returns -1 with errno EIO, drops
the malformed packet from the staging buffer (cursors reset), and consumes
no further transport responses (no retry); (ii) a transport error during
accumulation is propagated as the transport's own negative return value,
with errno untouched by the adapter — distinct from the decode-failure
error; (iii) likewise a transport end-of-stream is propagated as 0. -/
theorem c5_decode_failure (d : List Nat → Option (List Nat))
    (base0 : List Nat) (sz len : Nat) (bin bout : Sockbuf_Buf)
    (hlen : 0 < len) (hbin : bin.buf_ptr = bin.buf_end) :
    (∀ (h0 h1 h2 h3 : Nat) (body : List Nat) (rs'' : List RdResp),
      be32 [h0, h1, h2, h3] ≤ 65536 → 0 < be32 [h0, h1, h2, h3] →
      body.length = be32 [h0, h1, h2, h3] →
      d ([h0, h1, h2, h3] ++ body) = none →
      (sb_sasl_read d ⟨⟨base0, 0, 0, sz⟩, bin, bout⟩ len
        (.bytes [h0, h1, h2, h3] :: .bytes body :: rs'')).ret = -1 ∧
      (sb_sasl_read d ⟨⟨base0, 0, 0, sz⟩, bin, bout⟩ len
        (.bytes [h0, h1, h2, h3] :: .bytes body :: rs'')).eio = true ∧
      (sb_sasl_read d ⟨⟨base0, 0, 0, sz⟩, bin, bout⟩ len
        (.bytes [h0, h1, h2, h3] :: .bytes body :: rs'')).st.sec_buf_in.buf_ptr = 0 ∧
      (sb_sasl_read d ⟨⟨base0, 0, 0, sz⟩, bin, bout⟩ len
        (.bytes [h0, h1, h2, h3] :: .bytes body :: rs'')).st.sec_buf_in.buf_end = 0 ∧
      (sb_sasl_read d ⟨⟨base0, 0, 0, sz⟩, bin, bout⟩ len
        (.bytes [h0, h1, h2, h3] :: .bytes body :: rs'')).rest = rs'') ∧
    (∀ (e : Int) (rs' : List RdResp), e < 0 →
      (sb_sasl_read d ⟨⟨base0, 0, 0, sz⟩, bin, bout⟩ len (.rerr e :: rs')).ret = e ∧
      (sb_sasl_read d ⟨⟨base0, 0, 0, sz⟩, bin, bout⟩ len (.rerr e :: rs')).eio = false) ∧
    (∀ rs' : List RdResp,
      (sb_sasl_read d ⟨⟨base0, 0, 0, sz⟩, bin, bout⟩ len (.bytes [] :: rs')).ret = 0 ∧
      (sb_sasl_read d ⟨⟨base0, 0, 0, sz⟩, bin, bout⟩ len (.bytes [] :: rs')).eio = false) := by
  refine ⟨?_, ?_, ?_⟩
  · intro h0 h1 h2 h3 body rs'' hval hpos hbody hdec
    have hplen : sb_sasl_pkt_length (h0 :: h1 :: h2 :: h3 :: base0.drop 4) =
        be32 [h0, h1, h2, h3] + 4 := by
      rw [sb_sasl_pkt_length_norm _ (by rw [be32_cons]; exact hval), be32_cons]
    rw [sb_sasl_read_scenario d h0 h1 h2 h3 base0 sz len bin bout hlen hbin
      (.bytes body :: rs'')]
    rw [hplen]
    rw [sb_sasl_read_body_one
      ⟨h0 :: h1 :: h2 :: h3 :: base0.drop 4, 4, be32 [h0, h1, h2, h3] + 4,
        max sz (be32 [h0, h1, h2, h3] + 4)⟩ body rs''
      (by show 4 < be32 [h0, h1, h2, h3] + 4; omega)
      (by show body.length = be32 [h0, h1, h2, h3] + 4 - 4; omega)]
    have hpkt : (writeAt (h0 :: h1 :: h2 :: h3 :: base0.drop 4) 4 body).take
        (be32 [h0, h1, h2, h3] + 4) = [h0, h1, h2, h3] ++ body := by
      unfold writeAt
      have h4 : (h0 :: h1 :: h2 :: h3 :: base0.drop 4).take 4 = [h0, h1, h2, h3] := rfl
      rw [h4]
      exact List.take_left' (by simp [hbody])
    dsimp only
    rw [hpkt, hdec]
    rw [sb_sasl_drop_packet_consumed _
      (by show 4 + body.length ≤ be32 [h0, h1, h2, h3] + 4; omega)]
    exact ⟨rfl, rfl, rfl, rfl, rfl⟩
  · intro e rs' he
    unfold sb_sasl_read
    simp only [ber_pvt_sb_copy_out, hbin, Nat.sub_self, Nat.zero_min, Nat.sub_zero,
      List.take_zero, if_neg hlen.ne']
    rw [sb_sasl_read_hdr_rerr]
    exact ⟨rfl, rfl⟩
  · intro rs'
    unfold sb_sasl_read
    simp only [ber_pvt_sb_copy_out, hbin, Nat.sub_self, Nat.zero_min, Nat.sub_zero,
      List.take_zero, if_neg hlen.ne']
    rw [sb_sasl_read_hdr_eof]
    exact ⟨rfl, rfl⟩

/-- Claim C5 witness: a 5-byte packet (declared body length 1) rejected by
a decode that fails on everything yields -1 with EIO, a reset staging
buffer, an untouched trailing transport response list, and the transport
error -7 is propagated as itself. -/
theorem c5_witness :
    be32 [0, 0, 0, 1] ≤ 65536 ∧ 0 < be32 [0, 0, 0, 1] ∧
    (sb_sasl_read (fun _ => none) ⟨⟨[], 0, 0, 4096⟩, ber_pvt_sb_buf_init, ber_pvt_sb_buf_init⟩ 1
      [.bytes [0, 0, 0, 1], .bytes [42]]).ret = -1 ∧
    (sb_sasl_read (fun _ => none) ⟨⟨[], 0, 0, 4096⟩, ber_pvt_sb_buf_init, ber_pvt_sb_buf_init⟩ 1
      [.bytes [0, 0, 0, 1], .bytes [42]]).eio = true ∧
    (sb_sasl_read (fun _ => none) ⟨⟨[], 0, 0, 4096⟩, ber_pvt_sb_buf_init, ber_pvt_sb_buf_init⟩ 1
      [.bytes [0, 0, 0, 1], .bytes [42]]).rest = [] ∧
    (sb_sasl_read (fun _ => none) ⟨⟨[], 0, 0, 4096⟩, ber_pvt_sb_buf_init, ber_pvt_sb_buf_init⟩ 1
      [.rerr (-7)]).ret = -7 := by
  have h := c5_decode_failure (fun _ => none) [] 4096 1 ber_pvt_sb_buf_init ber_pvt_sb_buf_init
    (by decide) rfl
  have ha := h.1 0 0 0 1 [42] [] (by decide) (by decide) (by decide) rfl
  exact ⟨by decide, by decide, ha.1, ha.2.1, ha.2.2.2.2, (h.2.1 (-7) [] (by decide)).1⟩

/-- A response of the transport to one flush attempt: it accepts `n` bytes
(`acc n`, possibly 0), or returns an error value (`werr e`, negative). -/
inductive WrResp where
  | acc (n : Nat)
  | werr (e : Int)
  deriving Repr, DecidableEq

/-- Modelled from the spec: `ber_pvt_sb_do_write` (liblber, not among the
sources under study) flushes the pending bytes `[buf_ptr, buf_end)` of the
output staging buffer to the transport.  It propagates a transport error
unchanged, advances the cursor by the number of bytes the transport
accepted, and — per the spec's write contract — signals a partial flush
(fewer bytes accepted than pending) with a 0-or-negative return so that no
new packet is encoded while a prior packet is incompletely sent; on a
complete flush it returns the (positive) number of bytes flushed. -/
def ber_pvt_sb_do_write (b : Sockbuf_Buf) (w : WrResp) : Int × Sockbuf_Buf :=
  match w with
  | .werr e => (e, b)
  | .acc n =>
    let pending := b.buf_end - b.buf_ptr
    let k := min n pending
    let b1 := { b with buf_ptr := b.buf_ptr + k }
    if k < pending then (0, b1) else ((k : Nat), b1)

/-- Embedding of the encode-and-flush tail of `sb_sasl_write`
(sasl.c:614-629): destroy the output buffer, encrypt the caller's data in
one `sasl_encode` call (`none` is a non-SASL_OK return, yielding -1), set
the frame bounds, flush, propagate a 0-or-negative flush result, and
otherwise report the caller's full length as accepted. -/
def sb_sasl_write_encode (encode : List Nat → Option (List Nat)) (p : SaslData)
    (data : List Nat) (w : WrResp) : Int × SaslData :=
  let p1 : SaslData := { p with buf_out := ber_pvt_sb_buf_init }
  match encode data with
  | none => (-1, p1)
  | some ct =>
    let r2 := ber_pvt_sb_do_write ⟨ct, 0, ct.length, ct.length⟩ w
    if r2.1 ≤ 0 then (r2.1, { p1 with buf_out := r2.2 })
    else ((data.length : Nat), { p1 with buf_out := r2.2 })

/-- Embedding of `sb_sasl_write` (sasl.c:596-630): if a previously encrypted
packet is still pending in the output staging buffer, attempt to flush it
first and return any 0-or-negative flush result without touching the new
data; only once the prior packet has fully flushed is the new packet
encoded and sent. -/
def sb_sasl_write (encode : List Nat → Option (List Nat)) (p : SaslData)
    (data : List Nat) (ws : List WrResp) : Int × SaslData :=
  if p.buf_out.buf_ptr ≠ p.buf_out.buf_end then
    let r := ber_pvt_sb_do_write p.buf_out (ws.headD (.acc 0))
    if r.1 ≤ 0 then (r.1, { p with buf_out := r.2 })
    else sb_sasl_write_encode encode { p with buf_out := r.2 } data (ws.tail.headD (.acc 0))
  else sb_sasl_write_encode encode p data (ws.headD (.acc 0))

/-- Claim C4: while a previously encrypted packet is only partially flushed
(the transport accepts `n` bytes, fewer than pending), `sb_sasl_write`
returns that partial-flush result (0), retains the remainder of the prior
packet in the output staging buffer with its cursor advanced by `n`, and
never invokes the encode operation: the outcome is the same for every
encode function and mentions neither the new data nor its ciphertext. -/
theorem c4_write_partial_flush (encode : List Nat → Option (List Nat)) (p : SaslData)
    (data : List Nat) (n : Nat) (ws : List WrResp)
    (hpend : p.buf_out.buf_ptr ≠ p.buf_out.buf_end)
    (hpart : n < p.buf_out.buf_end - p.buf_out.buf_ptr) :
    sb_sasl_write encode p data (.acc n :: ws) =
      (0, { p with buf_out := { p.buf_out with buf_ptr := p.buf_out.buf_ptr + n } }) ∧
    (∀ encode' : List Nat → Option (List Nat),
      sb_sasl_write encode p data (.acc n :: ws) =
        sb_sasl_write encode' p data (.acc n :: ws)) := by
  have hmain : sb_sasl_write encode p data (.acc n :: ws) =
      (0, { p with buf_out := { p.buf_out with buf_ptr := p.buf_out.buf_ptr + n } }) := by
    unfold sb_sasl_write ber_pvt_sb_do_write
    rw [if_pos hpend]
    simp only [List.headD_cons]
    rw [Nat.min_eq_left (Nat.le_of_lt hpart)]
    rw [if_pos hpart]
    norm_num
  refine ⟨hmain, fun encode' => ?_⟩
  rw [hmain]
  have hmain' : sb_sasl_write encode' p data (.acc n :: ws) =
      (0, { p with buf_out := { p.buf_out with buf_ptr := p.buf_out.buf_ptr + n } }) := by
    unfold sb_sasl_write ber_pvt_sb_do_write
    rw [if_pos hpend]
    simp only [List.headD_cons]
    rw [Nat.min_eq_left (Nat.le_of_lt hpart)]
    rw [if_pos hpart]
    norm_num
  rw [hmain']

/-- Claim C4 witness: a pending 3-byte packet of which the transport
accepts 1 byte leaves the write returning 0 with the remainder retained,
identically for two different encode functions. -/
theorem c4_witness :
    ((⟨ber_pvt_sb_buf_init, ber_pvt_sb_buf_init, ⟨[1, 2, 3], 0, 3, 3⟩⟩ : SaslData).buf_out.buf_ptr ≠
      (⟨ber_pvt_sb_buf_init, ber_pvt_sb_buf_init, ⟨[1, 2, 3], 0, 3, 3⟩⟩ : SaslData).buf_out.buf_end) ∧
    sb_sasl_write (fun l => some l) ⟨ber_pvt_sb_buf_init, ber_pvt_sb_buf_init, ⟨[1, 2, 3], 0, 3, 3⟩⟩
        [9] [.acc 1] =
      (0, ⟨ber_pvt_sb_buf_init, ber_pvt_sb_buf_init, ⟨[1, 2, 3], 1, 3, 3⟩⟩) :=
  ⟨by decide,
    (c4_write_partial_flush (fun l => some l)
      ⟨ber_pvt_sb_buf_init, ber_pvt_sb_buf_init, ⟨[1, 2, 3], 0, 3, 3⟩⟩ [9] 1 []
      (by decide) (by decide)).1⟩

/-- Embedding of `sasl_err2ldap` (sasl.c:669-707): the switch over the
provider status code, including the default arm. -/
def sasl_err2ldap (saslerr : Int) : Nat :=
  if saslerr = SASL_CONTINUE then LDAP_MORE_RESULTS_TO_RETURN
  else if saslerr = SASL_OK then LDAP_SUCCESS
  else if saslerr = SASL_FAIL then LDAP_LOCAL_ERROR
  else if saslerr = SASL_NOMEM then LDAP_NO_MEMORY
  else if saslerr = SASL_NOMECH then LDAP_AUTH_UNKNOWN
  else if saslerr = SASL_BADAUTH then LDAP_AUTH_UNKNOWN
  else if saslerr = SASL_NOAUTHZ then LDAP_PARAM_ERROR
  else if saslerr = SASL_TOOWEAK then LDAP_AUTH_UNKNOWN
  else if saslerr = SASL_ENCRYPT then LDAP_AUTH_UNKNOWN
  else LDAP_LOCAL_ERROR

/-- Claim C8, counterexample: the generic failure `SASL_FAIL` is mapped to
`LDAP_LOCAL_ERROR`, while bad-authentication is mapped to
`LDAP_AUTH_UNKNOWN`; the two differ, so generic failure, too-weak,
bad-authentication and unknown-mechanism are not all sent to one umbrella
"authentication failed" signal, contrary to the claim. -/
theorem c8_counterexample :
    sasl_err2ldap SASL_FAIL = LDAP_LOCAL_ERROR ∧
    sasl_err2ldap SASL_BADAUTH = LDAP_AUTH_UNKNOWN ∧
    LDAP_LOCAL_ERROR ≠ LDAP_AUTH_UNKNOWN := by
  refine ⟨rfl, rfl, ?_⟩
  decide

/-- Claim C8 (amended): continue maps to the more-data signal, success to
success, allocation failure to out-of-memory, unsupported authorization
identity to the invalid-parameter signal; too-weak, bad-authentication and
unknown-mechanism map to the authentication-failed signal, while the
generic failure (and any unlisted status) maps to the local-error signal;
and every mapped outcome is either success or a recognized LDAP API error
code, never an unmapped passthrough value. -/
theorem c8_err2ldap_amended :
    sasl_err2ldap SASL_CONTINUE = LDAP_MORE_RESULTS_TO_RETURN ∧
    sasl_err2ldap SASL_OK = LDAP_SUCCESS ∧
    sasl_err2ldap SASL_NOMEM = LDAP_NO_MEMORY ∧
    sasl_err2ldap SASL_NOAUTHZ = LDAP_PARAM_ERROR ∧
    sasl_err2ldap SASL_FAIL = LDAP_LOCAL_ERROR ∧
    sasl_err2ldap SASL_TOOWEAK = LDAP_AUTH_UNKNOWN ∧
    sasl_err2ldap SASL_BADAUTH = LDAP_AUTH_UNKNOWN ∧
    sasl_err2ldap SASL_NOMECH = LDAP_AUTH_UNKNOWN ∧
    sasl_err2ldap SASL_ENCRYPT = LDAP_AUTH_UNKNOWN ∧
    ∀ s : Int, sasl_err2ldap s = LDAP_SUCCESS ∨ LDAP_API_ERROR (sasl_err2ldap s) := by
  refine ⟨rfl, rfl, rfl, rfl, rfl, rfl, rfl, rfl, rfl, fun s => ?_⟩
  unfold sasl_err2ldap
  split_ifs <;> simp [LDAP_SUCCESS, LDAP_MORE_RESULTS_TO_RETURN, LDAP_LOCAL_ERROR,
    LDAP_NO_MEMORY, LDAP_AUTH_UNKNOWN, LDAP_PARAM_ERROR] <;> decide

/-- Cyrus SASL callback identifiers (sasl.h). -/
def SASL_CB_USER : Nat := 16385

/-- SASL_CB_AUTHNAME (0x4002). -/
def SASL_CB_AUTHNAME : Nat := 16386

/-- SASL_CB_LANGUAGE (0x4003). -/
def SASL_CB_LANGUAGE : Nat := 16387

/-- SASL_CB_PASS (0x4004). -/
def SASL_CB_PASS : Nat := 16388

/-- Outcome of the secret callback: the SASL status plus, on success, the
allocated secret bytes.  `crash` marks the undefined behavior of
dereferencing a null passphrase pointer. -/
inductive SecretRes where
  | badparam
  | nomem
  | crash
  | ok (secret : List Nat)
  deriving Repr, DecidableEq

/-- Embedding of `ldap_pvt_sasl_getsecret` (sasl.c:914-939).  `connValid`
and `psecretValid` model the `conn == NULL` / `psecret == NULL` checks;
`allocOk` models the LDAP_MALLOC outcome.  The source computes
`len = passphrase ? bv_len : 0`, allocates `sizeof(sasl_secret_t) + len`,
then executes `(*psecret)->len = passphrase->bv_len` unconditionally — a
null-pointer dereference when `passphrase` is absent (`crash`) — although
the `memcpy` two lines later is guarded by `passphrase != NULL`. -/
def ldap_pvt_sasl_getsecret (connValid psecretValid : Bool) (id : Nat)
    (passphrase : Option (List Nat)) (allocOk : Bool) : SecretRes :=
  if ¬connValid ∨ ¬psecretValid ∨ id ≠ SASL_CB_PASS then .badparam
  else if ¬allocOk then .nomem
  else
    match passphrase with
    | none => .crash
    | some p => .ok p

/-- Outcome of the simple callback: the SASL status plus, on success, the
result pointer content and length reported to the provider. -/
inductive SimpleRes where
  | badparam
  | ok (result : Option (List Nat)) (len : Nat)
  deriving Repr, DecidableEq

/-- Embedding of `ldap_pvt_sasl_getsimple` (sasl.c:941-967): identity and
authentication-name requests return the supplied string with its length (or
null with length 0 when absent), a language request returns null with
length 0, and any other id is rejected with SASL_BADPARAM, as is a null
result pointer. -/
def ldap_pvt_sasl_getsimple (resultValid : Bool) (id : Nat)
    (value : Option (List Nat)) : SimpleRes :=
  if ¬resultValid then .badparam
  else if id = SASL_CB_USER ∨ id = SASL_CB_AUTHNAME then
    .ok value (match value with | some v => v.length | none => 0)
  else if id = SASL_CB_LANGUAGE then .ok none 0
  else .badparam

/-- Claim C9: the bridge behaves as claimed on every path except one — a
secret request with a valid connection and output pointer but an absent
passphrase dereferences the null passphrase pointer (undefined behavior,
`crash`) instead of producing the zero-length secret the code's own
`passphrase != NULL` guard two lines later shows was intended. -/
theorem c9_getsecret_null_passphrase :
    ldap_pvt_sasl_getsecret true true SASL_CB_PASS none true = .crash ∧
    (∀ p : List Nat, ldap_pvt_sasl_getsecret true true SASL_CB_PASS (some p) true = .ok p) ∧
    ldap_pvt_sasl_getsecret false true SASL_CB_PASS (some [1]) true = .badparam ∧
    ldap_pvt_sasl_getsecret true false SASL_CB_PASS (some [1]) true = .badparam ∧
    ldap_pvt_sasl_getsecret true true SASL_CB_USER (some [1]) true = .badparam ∧
    ldap_pvt_sasl_getsecret true true SASL_CB_PASS (some [1]) false = .nomem ∧
    (∀ v : Option (List Nat), ldap_pvt_sasl_getsimple true SASL_CB_LANGUAGE v = .ok none 0) ∧
    (∀ v : List Nat, ldap_pvt_sasl_getsimple true SASL_CB_USER (some v) = .ok (some v) v.length) ∧
    (∀ v : List Nat, ldap_pvt_sasl_getsimple true SASL_CB_AUTHNAME (some v) = .ok (some v) v.length) ∧
    ldap_pvt_sasl_getsimple true SASL_CB_USER none = .ok none 0 ∧
    ldap_pvt_sasl_getsimple true SASL_CB_PASS (some [1]) = .badparam ∧
    ldap_pvt_sasl_getsimple false SASL_CB_USER (some [1]) = .badparam := by
  refine ⟨rfl, fun p => rfl, rfl, rfl, rfl, rfl, fun v => rfl, fun v => rfl, fun v => rfl,
    rfl, rfl, rfl⟩

/-- A member of the stack of I/O handlers installed on a `Sockbuf`: the
handler's identity and the context argument it was installed with. -/
structure IOLayer where
  io : Nat
  arg : Nat
  deriving Repr, DecidableEq

/-- The identity of the `ldap_pvt_sockbuf_io_sasl` handler table. -/
def ldap_pvt_sockbuf_io_sasl : Nat := 1

/-- Modelled from the spec: `ber_sockbuf_ctrl( sb, LBER_SB_OPT_HAS_IO, io )`
(liblber, not among the sources under study) reports whether the given I/O
handler is already installed on the stream. -/
def ber_sockbuf_has_io (sb : List IOLayer) (io : Nat) : Bool :=
  sb.any fun l => l.io = io

/-- Modelled from the spec: `ber_sockbuf_add_io` (liblber, not among the
sources under study) pushes the handler with its context argument onto the
stream's handler stack. -/
def ber_sockbuf_add_io (sb : List IOLayer) (io arg : Nat) : List IOLayer :=
  ⟨io, arg⟩ :: sb

/-- Embedding of `ldap_pvt_sasl_install` (sasl.c:657-667): add the SASL I/O
layer only if it is not already present, and return LDAP_SUCCESS in every
case. -/
def ldap_pvt_sasl_install (sb : List IOLayer) (ctx_arg : Nat) : Nat × List IOLayer :=
  if ¬ ber_sockbuf_has_io sb ldap_pvt_sockbuf_io_sasl then
    (LDAP_SUCCESS, ber_sockbuf_add_io sb ldap_pvt_sockbuf_io_sasl ctx_arg)
  else (LDAP_SUCCESS, sb)

/-- Claim C10: installing the SASL I/O layer is idempotent — a second
install call (even with a different context argument) adds no second layer
and leaves the stream unchanged, so the already-installed layer keeps its
original context argument — and every install call returns LDAP_SUCCESS. -/
theorem c10_install_idempotent (sb : List IOLayer) (ctx1 ctx2 : Nat) :
    (ldap_pvt_sasl_install sb ctx1).1 = LDAP_SUCCESS ∧
    ldap_pvt_sasl_install (ldap_pvt_sasl_install sb ctx1).2 ctx2 =
      (LDAP_SUCCESS, (ldap_pvt_sasl_install sb ctx1).2) := by
  unfold ldap_pvt_sasl_install
  by_cases h : ber_sockbuf_has_io sb ldap_pvt_sockbuf_io_sasl
  · simp [h]
  · have h2 : ber_sockbuf_has_io (ber_sockbuf_add_io sb ldap_pvt_sockbuf_io_sasl ctx1)
        ldap_pvt_sockbuf_io_sasl = true := by
      simp [ber_sockbuf_has_io, ber_sockbuf_add_io]
    simp [h, h2]

/-- Observable interactions of `ldap_pvt_sasl_bind` with its collaborators:
context disposal/creation, the provider start and step calls, the
bind-request/response exchange with the current outbound credential blob,
freeing of credential blobs (client and server side), and installation of
the streaming adapter.  Blobs are identified by numbers. -/
inductive NegEvent where
  | disposeCtx
  | createCtx
  | startCall
  | bindExchange (ccred : Option Nat)
  | freeCred (c : Nat)
  | stepCall (scred : Option Nat)
  | freeServerCred (c : Nat)
  | installAdapter
  deriving Repr, DecidableEq

/-- Provider interactions in the sense of the negotiation claim: the start
call and the step calls. -/
def NegEvent.isProviderCall : NegEvent → Bool
  | .startCall => true
  | .stepCall _ => true
  | _ => false

/-- The `LDAP_FREE( ccred.bv_val )` events: the source frees the outbound
blob only when it is non-null. -/
def freeCredEvents : Option Nat → List NegEvent
  | some c => [.freeCred c]
  | none => []

/-- The `ber_bvfree( scred )` events: `ber_bvfree` on a null blob is a
no-op. -/
def freeServerCredEvents : Option Nat → List NegEvent
  | some c => [.freeServerCred c]
  | none => []

/-- One scripted response of the server to a bind exchange: the result code
of `ldap_sasl_bind_s` and the optional server credential blob. -/
structure ServerStep where
  rc : Nat
  scred : Option Nat
  deriving Repr, DecidableEq

/-- Embedding of the negotiation loop of `ldap_pvt_sasl_bind`
(sasl.c:866-901), driven by the scripted provider step results `steps`
(status and next outbound blob of each `sasl_client_step`) and the scripted
server responses `server`.  Per round: exchange a bind request carrying the
current outbound blob; on LDAP_SUCCESS leave the loop; on any status other
than in-progress free the outbound blob, dispose the context and fail; else
free the outbound blob, feed the server blob to the provider step, free the
server blob, and either fail (disposing the context) on a bad step status
or continue with the new outbound blob.  An exhausted script stands for a
collaborator that never answers and yields LDAP_OTHER; the theorems always
supply enough script. -/
def ldap_pvt_sasl_bind_loop (steps : List (Int × Option Nat)) (server : List ServerStep)
    (ccred : Option Nat) : Nat × List NegEvent :=
  match server with
  | [] => (LDAP_OTHER, [])
  | sv :: server' =>
    if sv.rc = LDAP_SUCCESS then (LDAP_SUCCESS, [NegEvent.bindExchange ccred])
    else if sv.rc ≠ LDAP_SASL_BIND_IN_PROGRESS then
      (sv.rc, NegEvent.bindExchange ccred :: (freeCredEvents ccred ++ [NegEvent.disposeCtx]))
    else
      match steps with
      | [] => (LDAP_OTHER, NegEvent.bindExchange ccred :: freeCredEvents ccred)
      | (src, ncred) :: steps' =>
        let ev2 := NegEvent.bindExchange ccred :: (freeCredEvents ccred ++
          (NegEvent.stepCall sv.scred :: freeServerCredEvents sv.scred))
        if src ≠ SASL_OK ∧ src ≠ SASL_CONTINUE then
          (sasl_err2ldap src, ev2 ++ [NegEvent.disposeCtx])
        else
          ((ldap_pvt_sasl_bind_loop steps' server' ncred).1,
            ev2 ++ (ldap_pvt_sasl_bind_loop steps' server' ncred).2)

/-- Embedding of `ldap_pvt_sasl_bind` (sasl.c:758-911) over scripted
collaborators.  `version` is `ld->ld_version`; `hasOldCtx` whether a prior
security context exists (it is disposed first); `hostOk`, `peerOk`,
`sockOk` model the host lookup and the two socket-name queries; `newRC`
and `startRC`/`startCred` script `sasl_client_new` and
`sasl_client_start`; `steps` and `server` drive the loop; `ssf` is the
negotiated security strength factor, which decides adapter installation
after success. -/
def ldap_pvt_sasl_bind (version : Nat) (hasOldCtx hostOk peerOk sockOk : Bool)
    (newRC startRC : Int) (startCred : Option Nat)
    (steps : List (Int × Option Nat)) (server : List ServerStep) (ssf : Nat) :
    Nat × List NegEvent :=
  if version < 3 then (LDAP_NOT_SUPPORTED, [])
  else if ¬hostOk then (LDAP_UNAVAILABLE, [])
  else
    let ev0 := (if hasOldCtx then [NegEvent.disposeCtx] else []) ++ [NegEvent.createCtx]
    if newRC ≠ SASL_OK ∧ newRC ≠ SASL_CONTINUE then
      (sasl_err2ldap newRC, ev0 ++ [NegEvent.disposeCtx])
    else if ¬peerOk then (LDAP_OPERATIONS_ERROR, ev0)
    else if ¬sockOk then (LDAP_OPERATIONS_ERROR, ev0)
    else
      let ev1 := ev0 ++ [NegEvent.startCall]
      if startRC ≠ SASL_OK ∧ startRC ≠ SASL_CONTINUE then
        (sasl_err2ldap startRC, ev1 ++ [NegEvent.disposeCtx])
      else
        let lr := ldap_pvt_sasl_bind_loop steps server startCred
        if lr.1 = LDAP_SUCCESS ∧ ssf ≠ 0 then
          (lr.1, ev1 ++ lr.2 ++ [NegEvent.installAdapter])
        else (lr.1, ev1 ++ lr.2)

/-- Claim C6: in a 3-round negotiation — provider start returns continue,
the first step returns continue, the second step returns success, and the
server reports in-progress until the final round — the session performs
exactly 3 provider interactions (one start and two steps), and, as the
trace shows, the previously held outbound credential blob is freed
(`freeCred`) immediately before each provider step call that requests the
next blob. -/
theorem c6_three_rounds (b1 b2 b3 s1 s2 : Nat) (ssf : Nat) :
    ldap_pvt_sasl_bind 3 false true true true SASL_OK SASL_CONTINUE (some b1)
        [(SASL_CONTINUE, some b2), (SASL_OK, some b3)]
        [⟨LDAP_SASL_BIND_IN_PROGRESS, some s1⟩, ⟨LDAP_SASL_BIND_IN_PROGRESS, some s2⟩,
          ⟨LDAP_SUCCESS, none⟩] ssf =
      (LDAP_SUCCESS,
        [NegEvent.createCtx, NegEvent.startCall,
          NegEvent.bindExchange (some b1), NegEvent.freeCred b1,
          NegEvent.stepCall (some s1), NegEvent.freeServerCred s1,
          NegEvent.bindExchange (some b2), NegEvent.freeCred b2,
          NegEvent.stepCall (some s2), NegEvent.freeServerCred s2,
          NegEvent.bindExchange (some b3)] ++
        (if ssf ≠ 0 then [NegEvent.installAdapter] else [])) ∧
    (ldap_pvt_sasl_bind 3 false true true true SASL_OK SASL_CONTINUE (some b1)
        [(SASL_CONTINUE, some b2), (SASL_OK, some b3)]
        [⟨LDAP_SASL_BIND_IN_PROGRESS, some s1⟩, ⟨LDAP_SASL_BIND_IN_PROGRESS, some s2⟩,
          ⟨LDAP_SUCCESS, none⟩] ssf).2.countP NegEvent.isProviderCall = 3 := by
  have heq : ldap_pvt_sasl_bind 3 false true true true SASL_OK SASL_CONTINUE (some b1)
      [(SASL_CONTINUE, some b2), (SASL_OK, some b3)]
      [⟨LDAP_SASL_BIND_IN_PROGRESS, some s1⟩, ⟨LDAP_SASL_BIND_IN_PROGRESS, some s2⟩,
        ⟨LDAP_SUCCESS, none⟩] ssf =
      (LDAP_SUCCESS,
        [NegEvent.createCtx, NegEvent.startCall,
          NegEvent.bindExchange (some b1), NegEvent.freeCred b1,
          NegEvent.stepCall (some s1), NegEvent.freeServerCred s1,
          NegEvent.bindExchange (some b2), NegEvent.freeCred b2,
          NegEvent.stepCall (some s2), NegEvent.freeServerCred s2,
          NegEvent.bindExchange (some b3)] ++
        (if ssf ≠ 0 then [NegEvent.installAdapter] else [])) := by
    by_cases hssf : ssf = 0
    · subst hssf
      rfl
    · simp only [ldap_pvt_sasl_bind, ldap_pvt_sasl_bind_loop]
      norm_num [freeCredEvents, freeServerCredEvents, LDAP_SASL_BIND_IN_PROGRESS,
        LDAP_SUCCESS, SASL_OK, SASL_CONTINUE, hssf]
  refine ⟨heq, ?_⟩
  rw [heq]
  by_cases hssf : ssf = 0 <;>
    simp [hssf, List.countP_append, List.countP_cons, NegEvent.isProviderCall]

/-- Claim C7: a bind attempted on a connection whose protocol version is
below 3 returns LDAP_NOT_SUPPORTED with an empty interaction trace — in
particular, no security context is created. -/
theorem c7_version_check (version : Nat) (hasOldCtx hostOk peerOk sockOk : Bool)
    (newRC startRC : Int) (startCred : Option Nat)
    (steps : List (Int × Option Nat)) (server : List ServerStep) (ssf : Nat)
    (hv : version < 3) :
    ldap_pvt_sasl_bind version hasOldCtx hostOk peerOk sockOk newRC startRC startCred
        steps server ssf = (LDAP_NOT_SUPPORTED, []) ∧
    NegEvent.createCtx ∉ (ldap_pvt_sasl_bind version hasOldCtx hostOk peerOk sockOk
        newRC startRC startCred steps server ssf).2 := by
  have h : ldap_pvt_sasl_bind version hasOldCtx hostOk peerOk sockOk newRC startRC startCred
      steps server ssf = (LDAP_NOT_SUPPORTED, []) := by
    unfold ldap_pvt_sasl_bind
    rw [if_pos hv]
  refine ⟨h, ?_⟩
  rw [h]
  simp

/-- Claim C7 witness: a version-2 connection is refused without any
collaborator interaction. -/
theorem c7_witness :
    2 < 3 ∧
    ldap_pvt_sasl_bind 2 false true true true SASL_OK SASL_CONTINUE none [] [] 0 =
      (LDAP_NOT_SUPPORTED, []) :=
  ⟨by decide,
    (c7_version_check 2 false true true true SASL_OK SASL_CONTINUE none [] [] 0 (by decide)).1⟩

end Sasl
